import Mathlib

/-!
Verification development for the Moltcraft world-synchronization server
(`server/index.js` together with its validation module `server/validation.js`).

The embedding models JavaScript numbers as an inductive type `JSNum`
(NaN, ±Infinity, `undefined`, or a finite value represented as a rational),
JS objects used as dictionaries as association lists preserving insertion
order and in-place overwrite, fallible validators (which `throw` in the
source) as `Except String Unit`, and each Socket.io / REST handler as a pure
function from the world state and the request payload to the new world state
plus the list of emitted events.
-/

/-- Model of a JavaScript number as it flows through the server's validation
code: `NaN`, `Infinity`, `-Infinity`, `undefined` (an absent field read off a
request body), or a finite value. Finite values are represented as rationals;
the only operations the server performs on them are comparisons and `Math.abs`,
on which rational semantics and IEEE double semantics agree. -/
inductive JSNum where
  | nan
  | posInf
  | negInf
  | undef
  | num (q : ℚ)
deriving DecidableEq

namespace JSNum

/-- `Number.isFinite`. -/
def isFinite : JSNum → Bool
  | num _ => true
  | _ => false

/-- `Number.isInteger`. -/
def isInteger : JSNum → Bool
  | num q => q.den == 1
  | _ => false

/-- `Math.abs(v) > c` with JS comparison semantics: false for NaN (and for
`undefined`, whose `Math.abs` is NaN), true for ±Infinity. -/
def absGtQ : JSNum → ℚ → Bool
  | num q, c => decide (|q| > c)
  | posInf, _ => true
  | negInf, _ => true
  | _, _ => false

/-- `v < c` with JS comparison semantics (false for NaN/undefined). -/
def ltQ : JSNum → ℚ → Bool
  | num q, c => decide (q < c)
  | negInf, _ => true
  | _, _ => false

/-- `v > c` with JS comparison semantics (false for NaN/undefined). -/
def gtQ : JSNum → ℚ → Bool
  | num q, c => decide (q > c)
  | posInf, _ => true
  | _, _ => false

/-- Spec-side predicate `|v| ≤ c`; false on every non-finite value. -/
def absLeQ : JSNum → ℚ → Bool
  | num q, c => decide (|q| ≤ c)
  | _, _ => false

/-- Spec-side predicate `lo ≤ v ∧ v ≤ hi`; false on every non-finite value. -/
def inRangeQ : JSNum → ℚ → ℚ → Bool
  | num q, lo, hi => decide (lo ≤ q ∧ q ≤ hi)
  | _, _, _ => false

/-- JS stringification of a number, as used by the template string in
`getBlockKey`. Integral finite values render exactly as JS renders them;
non-integral finite values use the rational `num/den` notation as an
injective stand-in for JS decimal notation (no claim depends on the
concrete text of a non-integral key). -/
def render : JSNum → String
  | nan => "NaN"
  | posInf => "Infinity"
  | negInf => "-Infinity"
  | undef => "undefined"
  | num q => toString q

end JSNum

/-! ### JS objects used as string-keyed dictionaries

A JS object literal used as a map is modelled as an association list in
insertion order with unique keys; assignment overwrites in place, `delete`
removes the entry, and `Object.keys(...).length` is the list length. -/

/-- `key in obj` (key membership test). -/
def mapHas (m : List (String × α)) (k : String) : Bool :=
  m.any (fun p => p.1 == k)

/-- `obj[key]` read, `none` when absent. -/
def mapGet (m : List (String × α)) (k : String) : Option α :=
  (m.find? (fun p => p.1 == k)).map (·.2)

/-- `obj[key] = v`: overwrite the entry in place when the key is present
(it occurs at most once in a JS object), append when absent. -/
def mapSet (m : List (String × α)) (k : String) (v : α) : List (String × α) :=
  match m with
  | [] => [(k, v)]
  | p :: rest => if p.1 == k then (k, v) :: rest else p :: mapSet rest k v

/-- `delete obj[key]`. -/
def mapDel (m : List (String × α)) (k : String) : List (String × α) :=
  m.filter (fun p => p.1 != k)

/-- Number of entries stored under key `k` (1 or 0 for a well-formed map). -/
def countKey (m : List (String × α)) (k : String) : ℕ :=
  (m.filter (fun p => p.1 == k)).length

/-- Well-formedness of the dictionary model: keys are pairwise distinct,
which JS objects guarantee. -/
def mapWF (m : List (String × α)) : Prop :=
  (m.map Prod.fst).Nodup

instance (m : List (String × α)) : Decidable (mapWF m) := by
  unfold mapWF; infer_instance

/-! ### JS string truthiness helpers -/

/-- `a || b` on an optional string field: an absent field and the empty
string are both falsy in JS. -/
def jsOrStr (o : Option String) (d : String) : String :=
  match o with
  | some s => if s = "" then d else s
  | none => d

/-- `if (field) ...` truthiness of an optional string field. -/
def strTruthy (o : Option String) : Bool :=
  match o with
  | some s => s != ""
  | none => false

/-! ### Validation module (`server/validation.js`) -/

def MAX_COORDINATE : ℚ := 200
def MIN_HEIGHT : ℚ := -50
def MAX_HEIGHT : ℚ := 256
def MAX_MESSAGE_LENGTH : ℕ := 500

/-- `validateCoordinates(x, y, z)` with the default `maxDistance`
(`MAX_COORDINATE`), the only form the server ever calls. Checks run in
source order: finiteness, horizontal bounds, height bounds, integrality of
x and z; the first failing check's error is thrown. -/
def validateCoordinates (x y z : JSNum) : Except String Unit :=
  if !(x.isFinite && y.isFinite && z.isFinite) then
    .error "Coordinates must be finite numbers"
  else if x.absGtQ MAX_COORDINATE || z.absGtQ MAX_COORDINATE then
    .error "Coordinates must be within ±200"
  else if y.ltQ MIN_HEIGHT || y.gtQ MAX_HEIGHT then
    .error "Height must be between -50 and 256"
  else if !(x.isInteger && z.isInteger) then
    .error "X and Z coordinates must be integers"
  else
    .ok ()

/-- One character of the body of `COLOR_REGEX = /^#[0-9A-Fa-f]{6}$/`. -/
def isHexDigit (c : Char) : Bool :=
  c.isDigit || ('A' ≤ c && c ≤ 'F') || ('a' ≤ c && c ≤ 'f')

/-- `COLOR_REGEX.test(color)`. -/
def colorRegexTest (s : String) : Bool :=
  match s.data with
  | '#' :: rest => rest.length == 6 && rest.all isHexDigit
  | _ => false

/-- `validateColor(color)`. The `typeof color !== 'string'` guard is
subsumed by the embedding's typing (the argument is always a string here). -/
def validateColor (color : String) : Except String Unit :=
  if !colorRegexTest color then .error "Color must be in #RRGGBB format"
  else .ok ()

def validTypes : List String :=
  ["stone", "dirt", "grass", "wood", "leaves", "glass",
   "brick", "sand", "cobblestone", "torch", "water", "snow"]

/-- `validateBlockType(type)`. The source's error message interpolates the
list of valid types; the exact text is reproduced below. -/
def validateBlockType (t : String) : Except String Unit :=
  if !(validTypes.contains t) then
    .error "Invalid block type. Must be one of: stone, dirt, grass, wood, leaves, glass, brick, sand, cobblestone, torch, water, snow"
  else .ok ()

/-- One character of `/^[a-zA-Z0-9\s\-_]*$/` (ASCII whitespace stands in for
JS `\s`; no claim exercises non-ASCII whitespace). -/
def isNameChar (c : Char) : Bool :=
  c.isAlpha || c.isDigit || c == ' ' || c == '\t' || c == '\n' || c == '\r' ||
  c == '-' || c == '_'

/-- `validateAgentName(name)` (the `typeof` guard is subsumed by typing). -/
def validateAgentName (name : String) : Except String Unit :=
  if name.length == 0 then .error "Agent name must be a non-empty string"
  else if name.length > 50 then .error "Agent name must be 50 characters or less"
  else if !(name.data.all isNameChar) then
    .error "Agent name can only contain alphanumeric characters, spaces, hyphens, and underscores"
  else .ok ()

/-- `validateMessage(message)` (the `typeof` guard is subsumed by typing). -/
def validateMessage (message : String) : Except String Unit :=
  if message.length == 0 then .error "Message must be a non-empty string"
  else if message.length > MAX_MESSAGE_LENGTH then
    .error "Message must be 500 characters or less"
  else .ok ()

/-- Agent position payload `{x, y, z}`. -/
structure Position where
  x : JSNum
  y : JSNum
  z : JSNum
deriving DecidableEq

/-- `validatePosition(position)`. The `typeof position !== 'object'` guard
is subsumed by the embedding's typing (an absent position is handled by the
callers before this runs). -/
def validatePosition (p : Position) : Except String Unit :=
  if !(p.x.isFinite && p.y.isFinite && p.z.isFinite) then
    .error "Position coordinates must be finite numbers"
  else if p.x.absGtQ 500 || p.z.absGtQ 500 then
    .error "Position must be within ±500"
  else if p.y.ltQ (-100) || p.y.gtQ 512 then
    .error "Position Y must be between -100 and 512"
  else .ok ()

/-- Block-place request body `{x, y, z, color?, type?}`. -/
structure PlaceData where
  x : JSNum
  y : JSNum
  z : JSNum
  color : Option String
  type : Option String
deriving DecidableEq

/-- Block-remove request body `{x, y, z}`. -/
structure RemoveData where
  x : JSNum
  y : JSNum
  z : JSNum
deriving DecidableEq

/-- `validateBlockPlacement(data)`: coordinates first, then the color that
would actually be stored (`data.color || '#8B4513'`), then the type only
when present and truthy. The `!data || typeof data !== 'object'` guard is
subsumed by typing. -/
def validateBlockPlacement (d : PlaceData) : Except String Unit := do
  validateCoordinates d.x d.y d.z
  validateColor (jsOrStr d.color "#8B4513")
  match d.type with
  | some t => if t = "" then pure () else validateBlockType t
  | none => pure ()

/-- `validateBlockRemoval(data)` (object guard subsumed by typing). -/
def validateBlockRemoval (d : RemoveData) : Except String Unit :=
  validateCoordinates d.x d.y d.z

/-! ### World state and event fanout -/

/-- A stored block descriptor `{color, type}` (the format every current
write produces; legacy plain-string entries only occur in pre-existing
persisted files and are normalized on read, which no claim exercises). -/
structure Block where
  color : String
  type : String
deriving DecidableEq

/-- An entry of `world.agents`. -/
structure Agent where
  id : String
  name : String
  color : String
  position : Position
  avatar : String
deriving DecidableEq

/-- The authoritative in-memory world state. -/
structure World where
  blocks : List (String × Block)
  agents : List (String × Agent)
deriving DecidableEq

/-- `getBlockKey(x, y, z)`, the template string `x,y,z`. -/
def getBlockKey (x y z : JSNum) : String :=
  x.render ++ "," ++ y.render ++ "," ++ z.render

/-- Whom an emit call reaches: `io.emit` (all connected sessions),
`socket.emit` (the handling socket only), `socket.broadcast.emit`
(every connected session except the handling one). -/
inductive Target where
  | all
  | caller
  | others
deriving DecidableEq

/-- The payload shapes the server emits. `fromName` models the `from`
field of the chat payload (`from` is a reserved word in Lean). -/
inductive Payload where
  | blockPlaced (x y z : JSNum) (color : String) (type : String)
  | blockRemoved (x y z : JSNum)
  | chatMsg (fromName message timestamp : String)
  | agentJoined (id name color : String) (position : Position)
  | agentFull (id name color : String) (position : Position) (avatar : String)
  | agentMoved (id : String) (position : Position)
  | errorMsg (message : String)
deriving DecidableEq

/-- One emitted event: a delivery target, the event name, the payload. -/
structure EmitEvent where
  target : Target
  name : String
  payload : Payload
deriving DecidableEq

/-- The sessions that actually receive an emitted event, given the list of
currently connected session ids and the handling socket's id. -/
def recipients (connected : List String) (callerId : String) (e : EmitEvent) :
    List String :=
  match e.target with
  | .all => connected
  | .caller => [callerId]
  | .others => connected.filter (fun s => s != callerId)

/-! ### Socket.io event handlers (`server/index.js`, lines 169–379) -/

/-- Spawn request body `{name?, color?, avatar?}`. -/
structure SpawnData where
  name : Option String
  color : Option String
  avatar : Option String
deriving DecidableEq

/-- The validation prefix of `handleAgentSpawn`:
`if (data.name) validateAgentName(data.name); if (data.color) validateColor(data.color)`
(a falsy — absent or empty — field skips its validator). -/
def spawnValidation (d : SpawnData) : Except String Unit := do
  match d.name with
  | some n => if n = "" then pure () else validateAgentName n
  | none => pure ()
  match d.color with
  | some c => if c = "" then pure () else validateColor c
  | none => pure ()

/-- The payload `broadcastAgentEvent` builds from an agent. -/
def broadcastAgentEvent (a : Agent) : Payload :=
  .agentFull a.id a.name a.color a.position a.avatar

/-- `handleAgentSpawn` (socket `agent:spawn` / `agent:join`): validate, then
update the existing entry in place or create a fresh one, then confirm to
the caller (`agent:joined` without avatar) and broadcast `agent:joined` to
everyone. A validation failure emits `error:validation` to the caller only
and leaves the world untouched. -/
def handleAgentSpawn (w : World) (sid : String) (d : SpawnData) :
    World × List EmitEvent :=
  match spawnValidation d with
  | .error m => (w, [⟨.caller, "error:validation", .errorMsg m⟩])
  | .ok _ =>
    let a : Agent :=
      match mapGet w.agents sid with
      | some old =>
        { old with name := jsOrStr d.name old.name,
                   color := jsOrStr d.color old.color }
      | none =>
        { id := sid, name := jsOrStr d.name "Unknown",
          color := jsOrStr d.color "#ff6600",
          position := ⟨.num 0, .num 1, .num 0⟩,
          avatar := jsOrStr d.avatar "box" }
    let w2 : World := { w with agents := mapSet w.agents sid a }
    (w2, [⟨.caller, "agent:joined", .agentJoined sid a.name a.color a.position⟩,
          ⟨.all, "agent:joined", broadcastAgentEvent a⟩])

/-- Move request body `{position?}`. -/
structure MoveData where
  position : Option Position
deriving DecidableEq

/-- Socket `agent:move` handler: unknown agent, missing position, and
position validation failures each emit `error:validation` to the caller
only; on success the stored position is overwritten and `agent:moved` is
broadcast to the other sessions. -/
def agentMoveHandler (w : World) (sid : String) (d : MoveData) :
    World × List EmitEvent :=
  match mapGet w.agents sid with
  | none => (w, [⟨.caller, "error:validation", .errorMsg "Agent not found"⟩])
  | some a =>
    match d.position with
    | none => (w, [⟨.caller, "error:validation", .errorMsg "Position data required"⟩])
    | some pos =>
      match validatePosition pos with
      | .error m => (w, [⟨.caller, "error:validation", .errorMsg m⟩])
      | .ok _ =>
        ({ w with agents := mapSet w.agents sid { a with position := pos } },
         [⟨.others, "agent:moved", .agentMoved sid pos⟩])

/-- Socket `block:place` handler: validate, then store
`{color: data.color || '#8B4513', type: data.type || 'stone'}` under the
coordinate key and broadcast `block:placed` (whose fields the source reads
back from the entry just written, hence they equal the stored block). -/
def blockPlaceHandler (w : World) (d : PlaceData) : World × List EmitEvent :=
  match validateBlockPlacement d with
  | .error m => (w, [⟨.caller, "error:validation", .errorMsg m⟩])
  | .ok _ =>
    let b : Block := { color := jsOrStr d.color "#8B4513",
                       type := jsOrStr d.type "stone" }
    ({ w with blocks := mapSet w.blocks (getBlockKey d.x d.y d.z) b },
     [⟨.all, "block:placed", .blockPlaced d.x d.y d.z b.color b.type⟩])

/-- Socket `block:remove` handler: validate, then `delete` the coordinate
key (a no-op when absent) and broadcast `block:removed`. -/
def blockRemoveHandler (w : World) (d : RemoveData) : World × List EmitEvent :=
  match validateBlockRemoval d with
  | .error m => (w, [⟨.caller, "error:validation", .errorMsg m⟩])
  | .ok _ =>
    ({ w with blocks := mapDel w.blocks (getBlockKey d.x d.y d.z) },
     [⟨.all, "block:removed", .blockRemoved d.x d.y d.z⟩])

/-- Socket `chat:message` handler. `now` stands for
`new Date().toISOString()`. The emitted event is named `chat:message`
(the source comment reads "Use chat:message to match client expectation"). -/
def chatMessageHandler (w : World) (sid : String) (message : Option String)
    (now : String) : World × List EmitEvent :=
  match mapGet w.agents sid with
  | none => (w, [⟨.caller, "error:validation", .errorMsg "Agent not found"⟩])
  | some a =>
    match message with
    | none => (w, [⟨.caller, "error:validation", .errorMsg "Message required"⟩])
    | some m =>
      if m = "" then
        (w, [⟨.caller, "error:validation", .errorMsg "Message required"⟩])
      else
        match validateMessage m with
        | .error e => (w, [⟨.caller, "error:validation", .errorMsg e⟩])
        | .ok _ => (w, [⟨.all, "chat:message", .chatMsg a.name m now⟩])

/-- Socket `disconnect` handler: remove the agent and broadcast
`agent:left` when the session had spawned, otherwise do nothing. -/
def disconnectHandler (w : World) (sid : String) : World × List EmitEvent :=
  match mapGet w.agents sid with
  | some a =>
    ({ w with agents := mapDel w.agents sid },
     [⟨.all, "agent:left", broadcastAgentEvent a⟩])
  | none => (w, [])

/-! ### REST endpoints (`server/index.js`, lines 385–520) -/

/-- The HTTP response a mutating endpoint produces: `res.json({success:true})`
or `res.status(s).json({error: message})`. -/
inductive ApiResult where
  | ok
  | err (status : ℕ) (message : String)
deriving DecidableEq

/-- `POST /api/move` route handler: requires a truthy id and a present
position, validates the position, and only then looks the agent up
(404 when absent); on success the position is overwritten and
`agent:moved` is emitted to all sessions. -/
def apiMoveHandler (w : World) (id : Option String) (position : Option Position) :
    World × List EmitEvent × ApiResult :=
  if !strTruthy id then (w, [], .err 400 "Agent ID required")
  else
    match id, position with
    | some i, some pos =>
      (match validatePosition pos with
       | .error m => (w, [], .err 400 m)
       | .ok _ =>
         match mapGet w.agents i with
         | none => (w, [], .err 404 "Agent not found")
         | some a =>
           ({ w with agents := mapSet w.agents i { a with position := pos } },
            [⟨.all, "agent:moved", .agentMoved i pos⟩], .ok))
    | _, none => (w, [], .err 400 "Position data required")
    | none, _ => (w, [], .err 400 "Agent ID required")

/-- `POST /api/block` route handler: requires a truthy action and finite
x, y, z, then dispatches to the validated place or remove path (same
mutation, broadcast, and defaults as the socket handlers). -/
def apiBlockHandler (w : World) (action : Option String) (x y z : JSNum)
    (color : Option String) (type : Option String) :
    World × List EmitEvent × ApiResult :=
  if !strTruthy action then (w, [], .err 400 "Action (place/remove) required")
  else if !(x.isFinite && y.isFinite && z.isFinite) then
    (w, [], .err 400 "Invalid coordinates")
  else if action == some "place" then
    match validateBlockPlacement ⟨x, y, z, color, type⟩ with
    | .error m => (w, [], .err 400 m)
    | .ok _ =>
      let b : Block := { color := jsOrStr color "#8B4513",
                         type := jsOrStr type "stone" }
      ({ w with blocks := mapSet w.blocks (getBlockKey x y z) b },
       [⟨.all, "block:placed", .blockPlaced x y z b.color b.type⟩], .ok)
  else if action == some "remove" then
    match validateBlockRemoval ⟨x, y, z⟩ with
    | .error m => (w, [], .err 400 m)
    | .ok _ =>
      ({ w with blocks := mapDel w.blocks (getBlockKey x y z) },
       [⟨.all, "block:removed", .blockRemoved x y z⟩], .ok)
  else (w, [], .err 400 "Invalid action. Must be \x22place\x22 or \x22remove\x22")

/-! ### Rate limiting (`server/index.js`, lines 38–58)

The two `express-rate-limit` middleware instances are configured in the
source; the limiter algorithm itself lives in the library and is modelled
from its documented behavior: per client, a fixed window of `windowMs`
milliseconds with a hit counter, a request being rejected when the
incremented counter exceeds `max`, and the `skip` predicate consulted
before counting. Express presents a middleware mounted at a path with the
mount prefix stripped from `req.path` (documented Express behavior), which
is what the `skip` predicate of `blockLimiter` observes. -/

/-- State of one limiter for one client: when the current window ends and
how many hits it has counted. -/
structure LimState where
  resetAt : ℕ
  hits : ℕ
deriving DecidableEq

/-- One request through a limiter: roll the window if expired, count the
hit, allow iff the count is within `max`. -/
def limStep (windowMs maxHits : ℕ) (st : LimState) (now : ℕ) : LimState × Bool :=
  let st1 := if st.resetAt ≤ now then { resetAt := now + windowMs, hits := 0 } else st
  let st2 := { st1 with hits := st1.hits + 1 }
  (st2, st2.hits ≤ maxHits)

/-- `blockLimiter`'s skip predicate:
`(req) => req.method !== 'POST' || req.path !== '/api/block'`. -/
def blockLimiterSkip (method path : String) : Bool :=
  method != "POST" || path != "/api/block"

/-- The `req.path` a middleware mounted at `mount` observes for a request
whose full path is `full`: Express strips the mount prefix, so a request
hitting the mount point exactly is seen as `/`. -/
def mountRelativePath (mount full : String) : String :=
  if full = mount then "/" else full

/-- State of the whole `POST /api/block` processing chain for one client:
the `apiLimiter` counter (mounted at `/api/`), the `blockLimiter` counter
(mounted at `/api/block`), and the world. -/
structure PipelineState where
  apiLim : LimState
  blockLim : LimState
  world : World
deriving DecidableEq

/-- Outcome of one request through the chain: throttled by a limiter
(429, before any validation or state change) or handled by the route. -/
inductive PipeOutcome where
  | throttled (status : ℕ)
  | handled (r : ApiResult)
deriving DecidableEq

/-- One `POST /api/block` request from one client at time `now` (ms):
`apiLimiter` (windowMs 1000, max 20, no skip) runs first; then
`blockLimiter` (windowMs 1000, max 10) unless its skip predicate —
evaluated on the mount-relative `req.path` — says to skip; then the route
handler. -/
def postBlockStep (st : PipelineState) (now : ℕ) (action : Option String)
    (x y z : JSNum) (color : Option String) (type : Option String) :
    PipelineState × PipeOutcome :=
  let (api1, apiAllowed) := limStep 1000 20 st.apiLim now
  if !apiAllowed then ({ st with apiLim := api1 }, .throttled 429)
  else
    let seenPath := mountRelativePath "/api/block" "/api/block"
    if blockLimiterSkip "POST" seenPath then
      let (w2, _, r) := apiBlockHandler st.world action x y z color type
      ({ st with apiLim := api1, world := w2 }, .handled r)
    else
      let (blk1, blkAllowed) := limStep 1000 10 st.blockLim now
      if !blkAllowed then
        ({ st with apiLim := api1, blockLim := blk1 }, .throttled 429)
      else
        let (w2, _, r) := apiBlockHandler st.world action x y z color type
        ({ st with apiLim := api1, blockLim := blk1, world := w2 }, .handled r)

/-- Run `n` identical block-place requests from one client, one per
millisecond starting at `t0` (hence all within one one-second window). -/
def runBlockRequests : ℕ → PipelineState → ℕ → PipelineState × List PipeOutcome
  | 0, st, _ => (st, [])
  | n + 1, st, t =>
    let (st1, o) := postBlockStep st t (some "place") (.num 0) (.num 1) (.num 0)
        (some "#FF6600") (some "stone")
    let (st2, os) := runBlockRequests n st1 (t + 1)
    (st2, o :: os)

/-- How many of a run's outcomes were throttling rejections. -/
def throttledCount (outs : List PipeOutcome) : ℕ :=
  (outs.filter fun o => match o with | .throttled _ => true | _ => false).length

/-- A fresh processing chain: both limiter windows expired, empty world. -/
def initPipeline : PipelineState :=
  { apiLim := ⟨0, 0⟩, blockLim := ⟨0, 0⟩, world := ⟨[], []⟩ }

/-- Equality of validator outcomes is decidable (used to evaluate the
development on concrete inputs). -/
instance : DecidableEq (Except String Unit) := fun a b =>
  match a, b with
  | .ok (), .ok () => isTrue rfl
  | .error m, .error n =>
    if h : m = n then isTrue (by rw [h])
    else isFalse (fun he => h (Except.error.inj he))
  | .ok _, .error _ => isFalse (fun he => Except.noConfusion he)
  | .error _, .ok _ => isFalse (fun he => Except.noConfusion he)


/-! ### Dictionary lemmas -/

theorem mapGet_nil (k : String) : mapGet ([] : List (String × α)) k = none := rfl

theorem mapGet_cons_pos {p : String × α} {m : List (String × α)} {k : String}
    (h : (p.1 == k) = true) : mapGet (p :: m) k = some p.2 := by
  simp [mapGet, List.find?, h]

theorem mapGet_cons_neg {p : String × α} {m : List (String × α)} {k : String}
    (h : (p.1 == k) = false) : mapGet (p :: m) k = mapGet m k := by
  simp [mapGet, List.find?, h]

theorem mapSet_cons_pos {p : String × α} {m : List (String × α)} {k : String}
    {v : α} (h : (p.1 == k) = true) : mapSet (p :: m) k v = (k, v) :: m := by
  simp [mapSet, h]

theorem mapSet_cons_neg {p : String × α} {m : List (String × α)} {k : String}
    {v : α} (h : (p.1 == k) = false) :
    mapSet (p :: m) k v = p :: mapSet m k v := by
  simp [mapSet, h]

theorem mapDel_cons_pos {p : String × α} {m : List (String × α)} {k : String}
    (h : (p.1 == k) = true) : mapDel (p :: m) k = mapDel m k := by
  simp [mapDel, List.filter_cons, bne, h]

theorem mapDel_cons_neg {p : String × α} {m : List (String × α)} {k : String}
    (h : (p.1 == k) = false) : mapDel (p :: m) k = p :: mapDel m k := by
  simp [mapDel, List.filter_cons, bne, h]

theorem countKey_cons_pos {p : String × α} {m : List (String × α)} {k : String}
    (h : (p.1 == k) = true) : countKey (p :: m) k = countKey m k + 1 := by
  simp [countKey, List.filter_cons, h, Nat.add_comm]

theorem countKey_cons_neg {p : String × α} {m : List (String × α)} {k : String}
    (h : (p.1 == k) = false) : countKey (p :: m) k = countKey m k := by
  simp [countKey, List.filter_cons, h]

theorem mapGet_mapSet_self (m : List (String × α)) (k : String) (v : α) :
    mapGet (mapSet m k v) k = some v := by
  induction m with
  | nil => exact mapGet_cons_pos (by simp)
  | cons p m ih =>
    cases hp : (p.1 == k) with
    | true => rw [mapSet_cons_pos hp]; exact mapGet_cons_pos (by simp)
    | false => rw [mapSet_cons_neg hp, mapGet_cons_neg hp]; exact ih

theorem mapGet_mapSet_ne (m : List (String × α)) (k k' : String) (v : α)
    (h : k' ≠ k) : mapGet (mapSet m k v) k' = mapGet m k' := by
  have hkk : (k == k') = false := by
    simp only [beq_eq_false_iff_ne]; exact fun he => h he.symm
  induction m with
  | nil => rw [show mapSet [] k v = [(k, v)] from rfl, mapGet_cons_neg hkk, mapGet_nil]
  | cons p m ih =>
    cases hp : (p.1 == k) with
    | true =>
      have hpk : p.1 = k := by simpa using hp
      have hpk' : (p.1 == k') = false := by
        simp only [beq_eq_false_iff_ne, hpk]; exact fun he => h he.symm
      rw [mapSet_cons_pos hp, mapGet_cons_neg hkk, mapGet_cons_neg hpk']
    | false =>
      cases hp' : (p.1 == k') with
      | true => rw [mapSet_cons_neg hp, mapGet_cons_pos hp', mapGet_cons_pos hp']
      | false => rw [mapSet_cons_neg hp, mapGet_cons_neg hp', mapGet_cons_neg hp']; exact ih

theorem length_mapSet_of_get_some (m : List (String × α)) (k : String)
    (v w : α) (h : mapGet m k = some w) : (mapSet m k v).length = m.length := by
  induction m with
  | nil => simp [mapGet] at h
  | cons p m ih =>
    cases hp : (p.1 == k) with
    | true => rw [mapSet_cons_pos hp]; rfl
    | false =>
      rw [mapGet_cons_neg hp] at h
      rw [mapSet_cons_neg hp]
      simp [ih h]

theorem mapGet_mapDel_self (m : List (String × α)) (k : String) :
    mapGet (mapDel m k) k = none := by
  induction m with
  | nil => rfl
  | cons p m ih =>
    cases hp : (p.1 == k) with
    | true => rw [mapDel_cons_pos hp]; exact ih
    | false => rw [mapDel_cons_neg hp, mapGet_cons_neg hp]; exact ih

theorem mapDel_eq_self_of_get_none (m : List (String × α)) (k : String)
    (h : mapGet m k = none) : mapDel m k = m := by
  induction m with
  | nil => rfl
  | cons p m ih =>
    cases hp : (p.1 == k) with
    | true => rw [mapGet_cons_pos hp] at h; cases h
    | false =>
      rw [mapGet_cons_neg hp] at h
      rw [mapDel_cons_neg hp, ih h]

theorem countKey_eq_zero_of_not_mem (m : List (String × α)) (k : String)
    (h : k ∉ m.map Prod.fst) : countKey m k = 0 := by
  induction m with
  | nil => rfl
  | cons p m ih =>
    simp only [List.map_cons, List.mem_cons, not_or] at h
    have hp : (p.1 == k) = false := by
      simp only [beq_eq_false_iff_ne]; exact fun he => h.1 he.symm
    rw [countKey_cons_neg hp]
    exact ih h.2

theorem mem_keys_mapSet (m : List (String × α)) (k k' : String) (v : α) :
    k' ∈ (mapSet m k v).map Prod.fst ↔ k' = k ∨ k' ∈ m.map Prod.fst := by
  induction m with
  | nil => simp [mapSet]
  | cons p m ih =>
    cases hp : (p.1 == k) with
    | true =>
      have hpk : p.1 = k := by simpa using hp
      rw [mapSet_cons_pos hp]
      simp [hpk]
      try tauto
    | false =>
      rw [mapSet_cons_neg hp]
      simp [ih]
      try tauto

theorem mapWF_mapSet (m : List (String × α)) (k : String) (v : α)
    (h : mapWF m) : mapWF (mapSet m k v) := by
  induction m with
  | nil => simp [mapSet, mapWF]
  | cons p m ih =>
    simp only [mapWF, List.map_cons, List.nodup_cons] at h
    cases hp : (p.1 == k) with
    | true =>
      have hpk : p.1 = k := by simpa using hp
      rw [mapSet_cons_pos hp]
      simp only [mapWF, List.map_cons, List.nodup_cons]
      exact ⟨hpk ▸ h.1, h.2⟩
    | false =>
      have hpk : p.1 ≠ k := by simpa using hp
      rw [mapSet_cons_neg hp]
      simp only [mapWF, List.map_cons, List.nodup_cons]
      refine ⟨?_, ih h.2⟩
      rw [mem_keys_mapSet]
      rintro (he | he)
      · exact hpk he
      · exact h.1 he

theorem countKey_mapSet_self (m : List (String × α)) (k : String) (v : α)
    (h : mapWF m) : countKey (mapSet m k v) k = 1 := by
  induction m with
  | nil => rw [show mapSet [] k v = [(k, v)] from rfl, countKey_cons_pos (by simp)]; rfl
  | cons p m ih =>
    simp only [mapWF, List.map_cons, List.nodup_cons] at h
    cases hp : (p.1 == k) with
    | true =>
      have hpk : p.1 = k := by simpa using hp
      rw [mapSet_cons_pos hp, countKey_cons_pos (by simp),
          countKey_eq_zero_of_not_mem m k (hpk ▸ h.1)]
    | false =>
      rw [mapSet_cons_neg hp, countKey_cons_neg hp]
      exact ih h.2

theorem countKey_mapDel_self (m : List (String × α)) (k : String) :
    countKey (mapDel m k) k = 0 := by
  induction m with
  | nil => rfl
  | cons p m ih =>
    cases hp : (p.1 == k) with
    | true => rw [mapDel_cons_pos hp]; exact ih
    | false => rw [mapDel_cons_neg hp, countKey_cons_neg hp]; exact ih

theorem mapHas_of_get_some (m : List (String × α)) (k : String) (v : α)
    (h : mapGet m k = some v) : mapHas m k = true := by
  induction m with
  | nil => simp [mapGet] at h
  | cons p m ih =>
    cases hp : (p.1 == k) with
    | true => simp [mapHas, List.any_cons, hp]
    | false =>
      rw [mapGet_cons_neg hp] at h
      simp [mapHas, List.any_cons, hp]
      have := ih h
      simpa [mapHas] using this

/-! ### Characterizations of the validators -/

/-- Spec-side characterization of valid block coordinates, read off the
specification text: x, y, z finite; x and z integers; |x|, |z| at most 200;
y within the height band [-50, 256] (y need not be an integer). -/
def coordsSpec (x y z : JSNum) : Bool :=
  x.isFinite && y.isFinite && z.isFinite &&
  x.isInteger && z.isInteger &&
  x.absLeQ 200 && z.absLeQ 200 && y.inRangeQ (-50) 256

theorem validateCoordinates_ok_iff (x y z : JSNum) :
    validateCoordinates x y z = .ok () ↔ coordsSpec x y z = true := by
  rcases x with _ | _ | _ | _ | xq <;> rcases y with _ | _ | _ | _ | yq <;>
    rcases z with _ | _ | _ | _ | zq <;>
    simp [validateCoordinates, coordsSpec, JSNum.isFinite, JSNum.isInteger,
          JSNum.absGtQ, JSNum.ltQ, JSNum.gtQ, JSNum.absLeQ, JSNum.inRangeQ,
          MAX_COORDINATE, MIN_HEIGHT, MAX_HEIGHT, not_lt]
  split_ifs with h1 h2 h3
  · simp only [reduceCtorEq, false_iff]
    rintro ⟨⟨⟨_, hle1⟩, hle2⟩, _⟩
    rcases h1 with h | h <;> linarith
  · simp only [reduceCtorEq, false_iff]
    rintro ⟨⟨⟨_, _⟩, _⟩, hy1, hy2⟩
    rcases h2 with h | h <;> linarith
  · simp only [reduceCtorEq, false_iff]
    rintro ⟨⟨⟨⟨hd1, hd2⟩, _⟩, _⟩, _⟩
    rcases h3 with h | h <;> [exact h hd1; exact h hd2]
  · push_neg at h1 h2 h3
    simp only [true_iff]
    exact ⟨⟨⟨⟨h3.1, h3.2⟩, h1.1⟩, h1.2⟩, h2.1, h2.2⟩

/-- Every non-ok validator outcome is an error carrying a message. -/
theorem except_error_of_not_ok {e : Except String Unit}
    (h : e ≠ .ok ()) : ∃ m, e = .error m := by
  cases e with
  | ok u => cases u; exact absurd rfl h
  | error m => exact ⟨m, rfl⟩

/-- The out-of-range condition of the claim on rejected placements:
`|x| > 200`, `|z| > 200`, y outside [-50, 256] (any non-finite y counts as
outside the band), or a non-integral x or z (any non-finite x or z counts
as non-integral, as `Number.isInteger` does). -/
def yOutsideBand : JSNum → Bool
  | .num q => decide (q < -50 ∨ q > 256)
  | _ => true

def outOfRange (x y z : JSNum) : Prop :=
  x.absGtQ 200 = true ∨ z.absGtQ 200 = true ∨ yOutsideBand y = true ∨
  x.isInteger = false ∨ z.isInteger = false

instance (x y z : JSNum) : Decidable (outOfRange x y z) := by
  unfold outOfRange; infer_instance

/-- An out-of-range coordinate triple never satisfies the spec-side
characterization. -/
theorem coordsSpec_eq_false_of_outOfRange (x y z : JSNum)
    (h : outOfRange x y z) : coordsSpec x y z = false := by
  rcases x with _ | _ | _ | _ | xq <;> rcases y with _ | _ | _ | _ | yq <;>
    rcases z with _ | _ | _ | _ | zq <;>
    simp_all [outOfRange, coordsSpec, yOutsideBand, JSNum.isFinite,
              JSNum.isInteger, JSNum.absGtQ, JSNum.absLeQ, JSNum.inRangeQ,
              not_lt] <;>
    rcases h with h | h | h | h | h <;> try simp_all
  all_goals try intros
  all_goals first
    | linarith
    | (rcases h with h | h <;> intros <;> linarith)

/-- An out-of-range triple makes `validateCoordinates` throw. -/
theorem validateCoordinates_error_of_outOfRange (x y z : JSNum)
    (h : outOfRange x y z) : ∃ m, validateCoordinates x y z = .error m := by
  apply except_error_of_not_ok
  intro hok
  rw [validateCoordinates_ok_iff] at hok
  rw [coordsSpec_eq_false_of_outOfRange x y z h] at hok
  cases hok

/-- A coordinate failure short-circuits `validateBlockPlacement` with the
same error. -/
theorem validateBlockPlacement_error_of_coords (d : PlaceData) (m : String)
    (h : validateCoordinates d.x d.y d.z = .error m) :
    validateBlockPlacement d = .error m := by
  unfold validateBlockPlacement
  rw [h]
  rfl

/-- An accepted placement has accepted coordinates. -/
theorem coords_ok_of_placement_ok (d : PlaceData)
    (h : validateBlockPlacement d = .ok ()) :
    validateCoordinates d.x d.y d.z = .ok () := by
  cases hc : validateCoordinates d.x d.y d.z with
  | ok u => cases u; rfl
  | error m => rw [validateBlockPlacement_error_of_coords d m hc] at h; cases h

/-- Accepted coordinates are finite in each component. -/
theorem finite_of_coords_ok (x y z : JSNum)
    (h : validateCoordinates x y z = .ok ()) :
    x.isFinite = true ∧ y.isFinite = true ∧ z.isFinite = true := by
  rw [validateCoordinates_ok_iff] at h
  unfold coordsSpec at h
  simp only [Bool.and_eq_true] at h
  exact ⟨h.1.1.1.1.1.1.1, h.1.1.1.1.1.1.2, h.1.1.1.1.1.2⟩

/-! ### Handler-level lemmas -/

/-- The accepted-path behavior of the socket `block:place` handler. -/
theorem blockPlaceHandler_ok (w : World) (d : PlaceData)
    (h : validateBlockPlacement d = .ok ()) :
    blockPlaceHandler w d =
      ({ w with blocks := (mapSet w.blocks (getBlockKey d.x d.y d.z)
          ⟨jsOrStr d.color "#8B4513", jsOrStr d.type "stone"⟩) },
       [⟨.all, "block:placed",
         .blockPlaced d.x d.y d.z (jsOrStr d.color "#8B4513") (jsOrStr d.type "stone")⟩]) := by
  unfold blockPlaceHandler
  rw [h]

/-- The accepted-path behavior of the socket `block:remove` handler. -/
theorem blockRemoveHandler_ok (w : World) (d : RemoveData)
    (h : validateBlockRemoval d = .ok ()) :
    blockRemoveHandler w d =
      ({ w with blocks := mapDel w.blocks (getBlockKey d.x d.y d.z) },
       [⟨.all, "block:removed", .blockRemoved d.x d.y d.z⟩]) := by
  unfold blockRemoveHandler
  rw [h]

/-- The accepted-path behavior of the `POST /api/block` place action. -/
theorem apiBlockHandler_place_ok (w : World) (x y z : JSNum)
    (color type : Option String)
    (h : validateBlockPlacement ⟨x, y, z, color, type⟩ = .ok ()) :
    apiBlockHandler w (some "place") x y z color type =
      ({ w with blocks := (mapSet w.blocks (getBlockKey x y z)
          ⟨jsOrStr color "#8B4513", jsOrStr type "stone"⟩) },
       [⟨.all, "block:placed",
         .blockPlaced x y z (jsOrStr color "#8B4513") (jsOrStr type "stone")⟩], .ok) := by
  have hfin := finite_of_coords_ok x y z (coords_ok_of_placement_ok _ h)
  unfold apiBlockHandler
  simp [strTruthy, hfin.1, hfin.2.1, hfin.2.2, h]

/-! ### Claim theorems -/

/-- C2: `validateCoordinates(x,y,z)` succeeds exactly when x, y, z are all
finite, x and z are integers, |x| ≤ 200 and |z| ≤ 200, and -50 ≤ y ≤ 256
(a non-integral y in that band is accepted — integrality is only required
of x and z); any violation produces an error outcome instead of a normal
return. -/
theorem C2_validateCoordinates_characterization (x y z : JSNum) :
    (validateCoordinates x y z = .ok () ↔ coordsSpec x y z = true) ∧
    (validateCoordinates x y z ≠ .ok () →
      ∃ m, validateCoordinates x y z = .error m) :=
  ⟨validateCoordinates_ok_iff x y z, fun h => except_error_of_not_ok h⟩

/-- Witness for C2 at a concrete non-integral-y input: y = 3/2 inside the
band is accepted, and a concrete out-of-band input errs. -/
theorem C2_validateCoordinates_characterization_witness :
    (validateCoordinates (.num 3) (.num (mkRat 3 2)) (.num 0) = .ok ()) ∧
    (∃ m, validateCoordinates (.num 300) (.num 1) (.num 0) = .error m) :=
  ⟨((C2_validateCoordinates_characterization (.num 3) (.num (mkRat 3 2))
      (.num 0)).1).mpr (by decide),
   (C2_validateCoordinates_characterization (.num 300) (.num 1)
      (.num 0)).2 (by decide)⟩

/-- C1: an out-of-range place request (|x| > 200, |z| > 200, y outside
[-50, 256], or non-integral x or z) is rejected on both ingress paths with a
validation error delivered only to the originating caller, and the world
(in particular `world.blocks`) is exactly unchanged. -/
theorem C1_out_of_range_place_rejected (w : World) (d : PlaceData)
    (h : outOfRange d.x d.y d.z) :
    ((blockPlaceHandler w d).1 = w ∧
     ∃ m, (blockPlaceHandler w d).2 =
       [⟨.caller, "error:validation", .errorMsg m⟩]) ∧
    ((apiBlockHandler w (some "place") d.x d.y d.z d.color d.type).1 = w ∧
     (apiBlockHandler w (some "place") d.x d.y d.z d.color d.type).2.1 = [] ∧
     ∃ m, (apiBlockHandler w (some "place") d.x d.y d.z d.color d.type).2.2 =
       .err 400 m) := by
  obtain ⟨m, hm⟩ := validateCoordinates_error_of_outOfRange d.x d.y d.z h
  have hp : validateBlockPlacement d = .error m :=
    validateBlockPlacement_error_of_coords d m hm
  constructor
  · refine ⟨?_, m, ?_⟩ <;> simp [blockPlaceHandler, hp]
  · have hp2 : validateBlockPlacement ⟨d.x, d.y, d.z, d.color, d.type⟩ = .error m := hp
    by_cases hf : (d.x.isFinite && d.y.isFinite && d.z.isFinite) = true
    · refine ⟨?_, ?_, m, ?_⟩ <;> simp [apiBlockHandler, strTruthy, hf, hp2]
    · refine ⟨?_, ?_, "Invalid coordinates", ?_⟩ <;>
        simp [apiBlockHandler, strTruthy, hf]

/-- Witness for C1 at x = 300 (out of horizontal range) against an empty
world. -/
theorem C1_out_of_range_place_rejected_witness :
    outOfRange (JSNum.num 300) (.num 1) (.num 0) ∧
    (((blockPlaceHandler ⟨[], []⟩ ⟨.num 300, .num 1, .num 0, none, none⟩).1 =
        (⟨[], []⟩ : World) ∧
      ∃ m, (blockPlaceHandler ⟨[], []⟩ ⟨.num 300, .num 1, .num 0, none, none⟩).2 =
        [⟨.caller, "error:validation", .errorMsg m⟩]) ∧
     ((apiBlockHandler ⟨[], []⟩ (some "place") (.num 300) (.num 1) (.num 0)
         none none).1 = (⟨[], []⟩ : World) ∧
      (apiBlockHandler ⟨[], []⟩ (some "place") (.num 300) (.num 1) (.num 0)
         none none).2.1 = [] ∧
      ∃ m, (apiBlockHandler ⟨[], []⟩ (some "place") (.num 300) (.num 1) (.num 0)
         none none).2.2 = .err 400 m)) :=
  ⟨by decide,
   C1_out_of_range_place_rejected ⟨[], []⟩
     ⟨.num 300, .num 1, .num 0, none, none⟩ (by decide)⟩

/-- C8: place is idempotent and last-write-wins. Starting from any
well-formed block map, two accepted place calls for the same coordinates —
identical or differing in color/type — leave exactly one entry under that
coordinate key, holding the color and type of the latest call (after
defaulting). -/
theorem C8_place_idempotent (w : World) (d1 d2 : PlaceData)
    (hwf : mapWF w.blocks)
    (hx : d2.x = d1.x) (hy : d2.y = d1.y) (hz : d2.z = d1.z)
    (h1 : validateBlockPlacement d1 = .ok ())
    (h2 : validateBlockPlacement d2 = .ok ()) :
    countKey ((blockPlaceHandler (blockPlaceHandler w d1).1 d2).1).blocks
        (getBlockKey d1.x d1.y d1.z) = 1 ∧
    mapGet ((blockPlaceHandler (blockPlaceHandler w d1).1 d2).1).blocks
        (getBlockKey d1.x d1.y d1.z) =
      some ⟨jsOrStr d2.color "#8B4513", jsOrStr d2.type "stone"⟩ := by
  rw [blockPlaceHandler_ok w d1 h1]
  rw [blockPlaceHandler_ok _ d2 h2]
  simp only [hx, hy, hz]
  constructor
  · exact countKey_mapSet_self _ _ _
      (mapWF_mapSet w.blocks (getBlockKey d1.x d1.y d1.z) _ hwf)
  · exact mapGet_mapSet_self _ _ _

/-- Witness for C8: the same placement issued twice at (5,1,5) against an
empty world leaves one entry carrying the latest color/type. -/
theorem C8_place_idempotent_witness :
    countKey ((blockPlaceHandler
        (blockPlaceHandler ⟨[], []⟩
           ⟨.num 5, .num 1, .num 5, some "#8B4513", some "stone"⟩).1
        ⟨.num 5, .num 1, .num 5, some "#112233", some "wood"⟩).1).blocks
      (getBlockKey (.num 5) (.num 1) (.num 5)) = 1 ∧
    mapGet ((blockPlaceHandler
        (blockPlaceHandler ⟨[], []⟩
           ⟨.num 5, .num 1, .num 5, some "#8B4513", some "stone"⟩).1
        ⟨.num 5, .num 1, .num 5, some "#112233", some "wood"⟩).1).blocks
      (getBlockKey (.num 5) (.num 1) (.num 5)) = some ⟨"#112233", "wood"⟩ :=
  C8_place_idempotent ⟨[], []⟩
    ⟨.num 5, .num 1, .num 5, some "#8B4513", some "stone"⟩
    ⟨.num 5, .num 1, .num 5, some "#112233", some "wood"⟩
    (by decide) rfl rfl rfl (by decide) (by decide)

/-- C9: an accepted place followed by a remove of the same coordinates
leaves no entry under that key (the removal validates, since valid placement
coordinates are valid removal coordinates), and a remove whose key is absent
succeeds as a no-op: the world is unchanged and `block:removed` is still
broadcast rather than an error being raised. -/
theorem C9_place_remove_roundtrip (w : World) (d : PlaceData) (r : RemoveData)
    (hx : r.x = d.x) (hy : r.y = d.y) (hz : r.z = d.z)
    (hv : validateBlockPlacement d = .ok ()) :
    (mapGet ((blockRemoveHandler (blockPlaceHandler w d).1 r).1).blocks
        (getBlockKey d.x d.y d.z) = none ∧
     (blockRemoveHandler (blockPlaceHandler w d).1 r).2 =
       [⟨.all, "block:removed", .blockRemoved r.x r.y r.z⟩]) ∧
    (∀ w' : World, mapGet w'.blocks (getBlockKey r.x r.y r.z) = none →
       (blockRemoveHandler w' r).1 = w' ∧
       (blockRemoveHandler w' r).2 =
         [⟨.all, "block:removed", .blockRemoved r.x r.y r.z⟩]) := by
  have hrv : validateBlockRemoval r = .ok () := by
    show validateCoordinates r.x r.y r.z = .ok ()
    rw [hx, hy, hz]
    exact coords_ok_of_placement_ok d hv
  constructor
  · rw [blockPlaceHandler_ok w d hv, blockRemoveHandler_ok _ r hrv]
    refine ⟨?_, rfl⟩
    simp only [hx, hy, hz]
    exact mapGet_mapDel_self _ _
  · intro w' habs
    rw [blockRemoveHandler_ok w' r hrv]
    refine ⟨?_, rfl⟩
    show { w' with blocks := mapDel w'.blocks (getBlockKey r.x r.y r.z) } = w'
    rw [mapDel_eq_self_of_get_none _ _ habs]

/-- Witness for C9: place (5,1,5) then remove it against an empty world;
and a remove of the never-placed key (7,2,7) is a successful no-op. -/
theorem C9_place_remove_roundtrip_witness :
    (mapGet ((blockRemoveHandler
        (blockPlaceHandler ⟨[], []⟩
           ⟨.num 5, .num 1, .num 5, some "#8B4513", some "stone"⟩).1
        ⟨.num 5, .num 1, .num 5⟩).1).blocks
       (getBlockKey (.num 5) (.num 1) (.num 5)) = none ∧
     (blockRemoveHandler
        (blockPlaceHandler ⟨[], []⟩
           ⟨.num 5, .num 1, .num 5, some "#8B4513", some "stone"⟩).1
        ⟨.num 5, .num 1, .num 5⟩).2 =
       [⟨.all, "block:removed", .blockRemoved (.num 5) (.num 1) (.num 5)⟩]) ∧
    ((blockRemoveHandler ⟨[], []⟩ ⟨.num 7, .num 2, .num 7⟩).1 =
       (⟨[], []⟩ : World) ∧
     (blockRemoveHandler ⟨[], []⟩ ⟨.num 7, .num 2, .num 7⟩).2 =
       [⟨.all, "block:removed", .blockRemoved (.num 7) (.num 2) (.num 7)⟩]) :=
  ⟨(C9_place_remove_roundtrip ⟨[], []⟩
      ⟨.num 5, .num 1, .num 5, some "#8B4513", some "stone"⟩
      ⟨.num 5, .num 1, .num 5⟩ rfl rfl rfl (by decide)).1,
   (C9_place_remove_roundtrip ⟨[], []⟩
      ⟨.num 7, .num 2, .num 7, some "#8B4513", some "stone"⟩
      ⟨.num 7, .num 2, .num 7⟩ rfl rfl rfl (by decide)).2
     ⟨[], []⟩ (by decide)⟩

/-- C10: an accepted place request with an omitted color stores and
broadcasts the default color `#8B4513`; an omitted type stores and
broadcasts the default type `stone`, on both the socket and the REST path;
the defaults satisfy their validators, and for a request omitting both
fields, validation succeeds exactly when the coordinates do — an omitted
field can never be the cause of a validation failure. -/
theorem C10_place_defaults (w : World) (d : PlaceData)
    (h : validateBlockPlacement d = .ok ()) :
    (d.color = none →
       mapGet (blockPlaceHandler w d).1.blocks (getBlockKey d.x d.y d.z) =
         some ⟨"#8B4513", jsOrStr d.type "stone"⟩ ∧
       (blockPlaceHandler w d).2 =
         [⟨.all, "block:placed",
           .blockPlaced d.x d.y d.z "#8B4513" (jsOrStr d.type "stone")⟩] ∧
       (apiBlockHandler w (some "place") d.x d.y d.z d.color d.type).2.1 =
         [⟨.all, "block:placed",
           .blockPlaced d.x d.y d.z "#8B4513" (jsOrStr d.type "stone")⟩]) ∧
    (d.type = none →
       mapGet (blockPlaceHandler w d).1.blocks (getBlockKey d.x d.y d.z) =
         some ⟨jsOrStr d.color "#8B4513", "stone"⟩ ∧
       (blockPlaceHandler w d).2 =
         [⟨.all, "block:placed",
           .blockPlaced d.x d.y d.z (jsOrStr d.color "#8B4513") "stone"⟩] ∧
       (apiBlockHandler w (some "place") d.x d.y d.z d.color d.type).2.1 =
         [⟨.all, "block:placed",
           .blockPlaced d.x d.y d.z (jsOrStr d.color "#8B4513") "stone"⟩]) ∧
    validateColor "#8B4513" = .ok () ∧
    validateBlockType "stone" = .ok () ∧
    (∀ d' : PlaceData, d'.color = none → d'.type = none →
       (validateBlockPlacement d' = .ok () ↔
        validateCoordinates d'.x d'.y d'.z = .ok ())) := by
  have hrest := apiBlockHandler_place_ok w d.x d.y d.z d.color d.type h
  refine ⟨?_, ?_, by decide, by decide, ?_⟩
  · intro hc
    rw [blockPlaceHandler_ok w d h]
    refine ⟨?_, ?_, ?_⟩
    · rw [hc, show jsOrStr none "#8B4513" = "#8B4513" from rfl]
      exact mapGet_mapSet_self _ _ _
    · rw [hc]; rfl
    · rw [hrest, hc]; rfl
  · intro ht
    rw [blockPlaceHandler_ok w d h]
    refine ⟨?_, ?_, ?_⟩
    · rw [ht, show jsOrStr none "stone" = "stone" from rfl]
      exact mapGet_mapSet_self _ _ _
    · rw [ht]; rfl
    · rw [hrest, ht]; rfl
  · intro d' hc' ht'
    cases hcoord : validateCoordinates d'.x d'.y d'.z with
    | ok u =>
      cases u
      constructor
      · intro _; rfl
      · intro _
        unfold validateBlockPlacement
        rw [hcoord, hc', ht']
        rfl
    | error m =>
      rw [validateBlockPlacement_error_of_coords d' m hcoord]

/-- Witness for C10: placing at (5,1,5) with both fields omitted stores and
broadcasts `#8B4513` / `stone`. -/
theorem C10_place_defaults_witness :
    validateBlockPlacement ⟨.num 5, .num 1, .num 5, none, none⟩ = .ok () ∧
    (mapGet (blockPlaceHandler ⟨[], []⟩
        ⟨.num 5, .num 1, .num 5, none, none⟩).1.blocks
       (getBlockKey (.num 5) (.num 1) (.num 5)) =
         some ⟨"#8B4513", jsOrStr none "stone"⟩ ∧
     (blockPlaceHandler ⟨[], []⟩ ⟨.num 5, .num 1, .num 5, none, none⟩).2 =
       [⟨.all, "block:placed",
         .blockPlaced (.num 5) (.num 1) (.num 5) "#8B4513" (jsOrStr none "stone")⟩] ∧
     (apiBlockHandler ⟨[], []⟩ (some "place") (.num 5) (.num 1) (.num 5)
        none none).2.1 =
       [⟨.all, "block:placed",
         .blockPlaced (.num 5) (.num 1) (.num 5) "#8B4513" (jsOrStr none "stone")⟩]) :=
  ⟨by decide,
   (C10_place_defaults ⟨[], []⟩ ⟨.num 5, .num 1, .num 5, none, none⟩
      (by decide)).1 rfl⟩

/-- C5: a spawn event for a session id that is already registered updates
the entry in place and never adds a second one: the agent count is
unchanged (whether or not validation passes), the entry keeps its id, and
when validation passes the mutable fields carry the requested name/color
(falling back to the old values for falsy fields). -/
theorem C5_respawn_updates_in_place (w : World) (sid : String) (d : SpawnData)
    (a : Agent) (h : mapGet w.agents sid = some a) :
    ((handleAgentSpawn w sid d).1.agents).length = w.agents.length ∧
    ∃ a', mapGet (handleAgentSpawn w sid d).1.agents sid = some a' ∧
      a'.id = a.id ∧
      (spawnValidation d = .ok () →
        a'.name = jsOrStr d.name a.name ∧ a'.color = jsOrStr d.color a.color) := by
  cases hv : spawnValidation d with
  | error m =>
    have hred : handleAgentSpawn w sid d =
        (w, [⟨.caller, "error:validation", .errorMsg m⟩]) := by
      unfold handleAgentSpawn
      rw [hv]
    rw [hred]
    exact ⟨rfl, a, h, rfl, fun hok => Except.noConfusion hok⟩
  | ok u =>
    cases u
    have hred : handleAgentSpawn w sid d =
        ({ w with agents := (mapSet w.agents sid
            { a with name := jsOrStr d.name a.name,
                     color := jsOrStr d.color a.color }) },
         [⟨.caller, "agent:joined",
           .agentJoined sid (jsOrStr d.name a.name) (jsOrStr d.color a.color)
             a.position⟩,
          ⟨.all, "agent:joined", broadcastAgentEvent
            { a with name := jsOrStr d.name a.name,
                     color := jsOrStr d.color a.color }⟩]) := by
      unfold handleAgentSpawn
      rw [hv, h]
    rw [hred]
    refine ⟨length_mapSet_of_get_some w.agents sid _ a h, _, mapGet_mapSet_self _ _ _, rfl, fun _ => ⟨rfl, rfl⟩⟩

/-- Witness for C5: re-spawning session `s1` with a new name keeps the
count at one and the id fixed. -/
theorem C5_respawn_updates_in_place_witness :
    ((handleAgentSpawn
        ⟨[], [("s1", ⟨"s1", "Alice", "#ff6600", ⟨.num 0, .num 1, .num 0⟩, "box"⟩)]⟩
        "s1" ⟨some "Bob", some "#00AAFF", none⟩).1.agents).length =
      ([("s1", (⟨"s1", "Alice", "#ff6600", ⟨.num 0, .num 1, .num 0⟩, "box"⟩ : Agent))]).length ∧
    ∃ a', mapGet (handleAgentSpawn
        ⟨[], [("s1", ⟨"s1", "Alice", "#ff6600", ⟨.num 0, .num 1, .num 0⟩, "box"⟩)]⟩
        "s1" ⟨some "Bob", some "#00AAFF", none⟩).1.agents "s1" = some a' ∧
      a'.id = (⟨"s1", "Alice", "#ff6600", ⟨.num 0, .num 1, .num 0⟩, "box"⟩ : Agent).id ∧
      (spawnValidation ⟨some "Bob", some "#00AAFF", none⟩ = .ok () →
        a'.name = jsOrStr (some "Bob") "Alice" ∧
        a'.color = jsOrStr (some "#00AAFF") "#ff6600") :=
  C5_respawn_updates_in_place
    ⟨[], [("s1", ⟨"s1", "Alice", "#ff6600", ⟨.num 0, .num 1, .num 0⟩, "box"⟩)]⟩
    "s1" ⟨some "Bob", some "#00AAFF", none⟩
    ⟨"s1", "Alice", "#ff6600", ⟨.num 0, .num 1, .num 0⟩, "box"⟩ (by decide)

/-- C6 counterexample: a `POST /api/move` naming an unregistered id together
with an invalid (non-finite) position is rejected with a 400 validation
error, not a 404 NotFound — the route validates the position before looking
the agent up, so an unknown id does not always yield a NotFound condition. -/
theorem C6_api_move_unknown_id_not_notfound :
    apiMoveHandler ⟨[], []⟩ (some "ghost") (some ⟨.nan, .num 1, .num 0⟩) =
      (⟨[], []⟩, [], .err 400 "Position coordinates must be finite numbers") ∧
    ApiResult.err 400 "Position coordinates must be finite numbers" ≠
      ApiResult.err 404 "Agent not found" := by
  decide

/-- C6 (amended): a move request naming an unregistered session id never
changes the world and is answered only to the caller; the socket path always
reports "Agent not found", while the REST path reports 404 NotFound exactly
when the id is truthy and the position payload is present and valid
(otherwise it fails with a 400 validation error). For a registered id with
a valid position, both paths overwrite the stored position. -/
theorem C6_move_unknown_and_update (w : World) (sid : String) (d : MoveData)
    (pos : Position) (a : Agent) :
    (mapGet w.agents sid = none →
       agentMoveHandler w sid d =
         (w, [⟨.caller, "error:validation", .errorMsg "Agent not found"⟩]) ∧
       (apiMoveHandler w (some sid) (some pos)).1 = w ∧
       (apiMoveHandler w (some sid) (some pos)).2.1 = [] ∧
       (sid ≠ "" → validatePosition pos = .ok () →
         apiMoveHandler w (some sid) (some pos) =
           (w, [], .err 404 "Agent not found"))) ∧
    (mapGet w.agents sid = some a → validatePosition pos = .ok () →
       (agentMoveHandler w sid ⟨some pos⟩).1 =
         { w with agents := (mapSet w.agents sid { a with position := pos }) } ∧
       (sid ≠ "" →
         (apiMoveHandler w (some sid) (some pos)).1 =
           { w with agents := (mapSet w.agents sid { a with position := pos }) })) := by
  constructor
  · intro hnone
    refine ⟨by simp [agentMoveHandler, hnone], ?_⟩
    by_cases hsid : sid = ""
    · subst hsid
      refine ⟨?_, ?_, fun hne _ => absurd rfl hne⟩ <;>
        simp [apiMoveHandler, strTruthy]
    · have htr : strTruthy (some sid) = true := by
        simp [strTruthy]; exact hsid
      cases hv : validatePosition pos with
      | error m =>
        refine ⟨?_, ?_, fun _ hok => Except.noConfusion hok⟩ <;>
          simp [apiMoveHandler, htr, hv]
      | ok u =>
        cases u
        refine ⟨?_, ?_, fun _ _ => by simp [apiMoveHandler, htr, hv, hnone]⟩ <;>
          simp [apiMoveHandler, htr, hv, hnone]
  · intro hsome hv
    refine ⟨by simp [agentMoveHandler, hsome, hv], ?_⟩
    intro hne
    have htr : strTruthy (some sid) = true := by
      simp [strTruthy]; exact hne
    simp [apiMoveHandler, htr, hv, hsome]

/-- Witness for C6 (amended): both the unknown-id branch (404 on the REST
path for a valid position, validation error on the socket path) and the
registered-id overwrite branch at concrete inputs. -/
theorem C6_move_unknown_and_update_witness :
    (agentMoveHandler ⟨[], []⟩ "ghost" ⟨some ⟨.num 5, .num 1, .num 10⟩⟩ =
       ((⟨[], []⟩ : World),
        [⟨.caller, "error:validation", .errorMsg "Agent not found"⟩]) ∧
     apiMoveHandler ⟨[], []⟩ (some "ghost") (some ⟨.num 5, .num 1, .num 10⟩) =
       (⟨[], []⟩, [], .err 404 "Agent not found")) ∧
    (agentMoveHandler
        ⟨[], [("s1", ⟨"s1", "Alice", "#ff6600", ⟨.num 0, .num 1, .num 0⟩, "box"⟩)]⟩
        "s1" ⟨some ⟨.num 5, .num 1, .num 10⟩⟩).1 =
      ⟨[], [("s1", ⟨"s1", "Alice", "#ff6600", ⟨.num 5, .num 1, .num 10⟩, "box"⟩)]⟩ := by
  have h1 := (C6_move_unknown_and_update ⟨[], []⟩ "ghost"
      ⟨some ⟨.num 5, .num 1, .num 10⟩⟩ ⟨.num 5, .num 1, .num 10⟩
      ⟨"", "", "", ⟨.num 0, .num 0, .num 0⟩, ""⟩).1 (by decide)
  have h2 := (C6_move_unknown_and_update
      ⟨[], [("s1", ⟨"s1", "Alice", "#ff6600", ⟨.num 0, .num 1, .num 0⟩, "box"⟩)]⟩
      "s1" ⟨some ⟨.num 5, .num 1, .num 10⟩⟩ ⟨.num 5, .num 1, .num 10⟩
      ⟨"s1", "Alice", "#ff6600", ⟨.num 0, .num 1, .num 0⟩, "box"⟩).2
      (by decide) (by decide)
  refine ⟨⟨h1.1, ?_⟩, ?_⟩
  · exact h1.2.2.2 (by decide) (by decide)
  · rw [h2.1]
    decide

/-- C7: disconnecting a session that had spawned removes exactly its entry
from the agent map and emits exactly one `agent:left` broadcast, which —
the departed socket being no longer connected — reaches every other
connected session and not the departed one; a disconnect of a session that
never spawned removes nothing and emits nothing. -/
theorem C7_disconnect_leave_broadcast (w : World) (sid : String) (a : Agent)
    (connected : List String) :
    (mapGet w.agents sid = some a →
       disconnectHandler w sid =
         ({ w with agents := mapDel w.agents sid },
          [⟨.all, "agent:left", broadcastAgentEvent a⟩]) ∧
       mapGet (disconnectHandler w sid).1.agents sid = none ∧
       ((disconnectHandler w sid).2.filter
          (fun e => e.name == "agent:left")).length = 1 ∧
       (sid ∉ connected →
         recipients connected sid ⟨.all, "agent:left", broadcastAgentEvent a⟩ =
           connected ∧
         sid ∉ recipients connected sid
           ⟨.all, "agent:left", broadcastAgentEvent a⟩)) ∧
    (mapGet w.agents sid = none → disconnectHandler w sid = (w, [])) := by
  constructor
  · intro hsome
    have hred : disconnectHandler w sid =
        ({ w with agents := mapDel w.agents sid },
         [⟨.all, "agent:left", broadcastAgentEvent a⟩]) := by
      unfold disconnectHandler
      rw [hsome]
    refine ⟨hred, ?_, ?_, ?_⟩
    · rw [hred]
      exact mapGet_mapDel_self _ _
    · rw [hred]
      rfl
    · intro hnc
      exact ⟨rfl, hnc⟩
  · intro hnone
    unfold disconnectHandler
    rw [hnone]

/-- Witness for C7: disconnecting spawned session `s1` with sessions
`s2`, `s3` still connected; and a never-spawned socket `s9` leaves no
trace. -/
theorem C7_disconnect_leave_broadcast_witness :
    (disconnectHandler
       ⟨[], [("s1", ⟨"s1", "Alice", "#ff6600", ⟨.num 0, .num 1, .num 0⟩, "box"⟩)]⟩
       "s1" =
      (⟨[], []⟩,
       [⟨.all, "agent:left", broadcastAgentEvent
          ⟨"s1", "Alice", "#ff6600", ⟨.num 0, .num 1, .num 0⟩, "box"⟩⟩]) ∧
     recipients ["s2", "s3"] "s1"
        ⟨.all, "agent:left", broadcastAgentEvent
          ⟨"s1", "Alice", "#ff6600", ⟨.num 0, .num 1, .num 0⟩, "box"⟩⟩ =
       ["s2", "s3"] ∧
     "s1" ∉ recipients ["s2", "s3"] "s1"
        ⟨.all, "agent:left", broadcastAgentEvent
          ⟨"s1", "Alice", "#ff6600", ⟨.num 0, .num 1, .num 0⟩, "box"⟩⟩) ∧
    disconnectHandler
       ⟨[], [("s1", ⟨"s1", "Alice", "#ff6600", ⟨.num 0, .num 1, .num 0⟩, "box"⟩)]⟩
       "s9" =
      (⟨[], [("s1", ⟨"s1", "Alice", "#ff6600", ⟨.num 0, .num 1, .num 0⟩, "box"⟩)]⟩,
       []) := by
  have h := C7_disconnect_leave_broadcast
      ⟨[], [("s1", ⟨"s1", "Alice", "#ff6600", ⟨.num 0, .num 1, .num 0⟩, "box"⟩)]⟩
      "s1" ⟨"s1", "Alice", "#ff6600", ⟨.num 0, .num 1, .num 0⟩, "box"⟩
      ["s2", "s3"]
  have h9 := (C7_disconnect_leave_broadcast
      ⟨[], [("s1", ⟨"s1", "Alice", "#ff6600", ⟨.num 0, .num 1, .num 0⟩, "box"⟩)]⟩
      "s9" ⟨"", "", "", ⟨.num 0, .num 0, .num 0⟩, ""⟩ []).2 (by decide)
  have h1 := h.1 (by decide)
  have hrec := h1.2.2.2 (by decide)
  refine ⟨⟨?_, hrec.1, hrec.2⟩, h9⟩
  rw [h1.1]
  decide

/-- C3 (evaluation at the claimed failing input): eleven valid block-place
requests from one origin, one per millisecond — all inside a single
one-second window — are all admitted and handled; none is throttled. The
stricter 10/second block cap never fires, because `blockLimiter`, mounted at
`/api/block`, observes the mount-relative `req.path` `/`, which its skip
predicate compares against the full path `/api/block`, so it skips every
request; only the general 20/second cap remains, and 11 ≤ 20. -/
theorem C3_eleven_block_requests_none_throttled :
    throttledCount (runBlockRequests 11 initPipeline 0).2 = 0 ∧
    (runBlockRequests 11 initPipeline 0).2.length = 11 ∧
    (runBlockRequests 11 initPipeline 0).2.all
      (fun o => o == .handled .ok) = true ∧
    blockLimiterSkip "POST" (mountRelativePath "/api/block" "/api/block") = true := by
  decide

/-- C4 (evaluation at the claimed failing input): a spawned session's valid
chat message is broadcast to all sessions with the expected
{from, message, timestamp} payload, but under the event name
`chat:message`, which differs from the `chat:broadcast` name the claim
(and the bundled client, which subscribes only to `chat:broadcast`)
prescribes. -/
theorem C4_chat_broadcast_event_misnamed :
    chatMessageHandler
        ⟨[], [("s1", ⟨"s1", "Alice", "#ff6600", ⟨.num 0, .num 1, .num 0⟩, "box"⟩)]⟩
        "s1" (some "hi") "2026-01-01T00:00:00.000Z" =
      (⟨[], [("s1", ⟨"s1", "Alice", "#ff6600", ⟨.num 0, .num 1, .num 0⟩, "box"⟩)]⟩,
       [⟨.all, "chat:message",
         .chatMsg "Alice" "hi" "2026-01-01T00:00:00.000Z"⟩]) ∧
    "chat:message" ≠ "chat:broadcast" := by
  decide
